import Mathlib

/-!
Shallow embedding of `src/server.py` (mcp-com-server): an MCP facade over
Windows COM automation.  Python dictionaries become association lists over
`String` keys, the win32com runtime becomes an oracle record of pure
functions, a Python value returned by COM dispatch becomes a record of the
observations the server actually performs on it (type name, module name,
string rendering, attribute markers), and every tool function becomes a
pure function from the registry (plus oracles and the uuid the runtime
would draw) to a result envelope and an updated registry.
-/

/-- Character-list prefix test, used to model Python's `str.startswith`. -/
def charsPre : List Char → List Char → Bool
  | [], _ => true
  | _ :: _, [] => false
  | a :: as, b :: bs => a == b && charsPre as bs

/-- Character-list infix test, used to model Python's `needle in haystack`. -/
def listSub (n : List Char) : List Char → Bool
  | [] => n.isEmpty
  | b :: bs => charsPre n (b :: bs) || listSub n bs

/-- Python `needle in hay` on strings. -/
def strContains (hay needle : String) : Bool :=
  listSub needle.data hay.data

/-- Python `s.startswith(p)`. -/
def pyStartsWith (s p : String) : Bool :=
  charsPre p.data s.data

/-- Python `s.endswith(p)`. -/
def pyEndsWith (s p : String) : Bool :=
  charsPre p.data.reverse s.data.reverse

/-- Python `hex(n)` for a nonnegative `n`: `0x` followed by lowercase hex digits. -/
def pyHex (n : Nat) : String :=
  "0x" ++ (Nat.toDigits 16 n).asString

/-! HRESULT codes, `src/server.py` lines 13-19. -/

def S_OK : Nat := 0x00000000
def S_FALSE : Nat := 0x00000001
def E_FAIL : Nat := 0x80004005
def E_NOINTERFACE : Nat := 0x80004002
def E_INVALIDARG : Nat := 0x80070057
def E_ACCESSDENIED : Nat := 0x80070005
def DISP_E_MEMBERNOTFOUND : Nat := 0x80020003

/-- Line 21-32: convert an HRESULT code to a readable string; a Python dict
lookup with a default becomes an equality chain over the (distinct) keys. -/
def hr_to_string (hr : Nat) : String :=
  if hr = S_OK then "S_OK (0x00000000) - Operation successful"
  else if hr = S_FALSE then "S_FALSE (0x00000001) - Successful but false condition"
  else if hr = E_FAIL then "E_FAIL (0x80004005) - Unspecified failure"
  else if hr = E_NOINTERFACE then "E_NOINTERFACE (0x80004002) - Interface not supported"
  else if hr = E_INVALIDARG then "E_INVALIDARG (0x80070057) - One or more arguments are invalid"
  else if hr = E_ACCESSDENIED then "E_ACCESSDENIED (0x80070005) - Access denied"
  else if hr = DISP_E_MEMBERNOTFOUND then "DISP_E_MEMBERNOTFOUND  (0x80020003) - Member not found"
  else "Unknown HRESULT: " ++ pyHex hr

/-- The observations `src/server.py` makes on a Python value returned by COM
dispatch: the classifier inputs (lines 304-308 and 404-408), the members used
by `get_type_info` (lines 71-102), and the `_oleobj_.GetCLSID()` call of the
CLSID-recovery blocks.  `oleGetCLSID` is `some c` when
`str(uuid.UUID(bytes_le=v._oleobj_.GetCLSID()))` evaluates to `c`, and `none`
when that chain raises; `sigStr` is `some s` when `str(v.__signature__)` is
`s`, `none` when the attribute is absent. -/
structure PyValue where
  hasOleobj : Bool
  typeName : String
  typeModule : String
  strRep : String
  isCDispatchInst : Bool
  isCoClassInst : Bool
  isDispatchBaseInst : Bool
  isNone : Bool
  isCallable : Bool
  oleGetCLSID : Option String
  sigStr : Option String
  deriving DecidableEq, Repr

/-- A Python object held by the registry (or produced by dispatch): its
observational part plus the behaviours the server uses — `dir(obj)`
(`members`), `getattr` (`attr`, `.error` models a raise), late-bound method
call (`callm`), `setattr` (`seta`, `some e` models a raise with message `e`),
and `QueryInterface` (`qi`). -/
inductive ComObject where
  | mk (val : PyValue) (members : List String)
       (attr : String → Except String ComObject)
       (callm : String → List PyValue → Except String ComObject)
       (seta : String → PyValue → Option String)
       (qi : String → Except String ComObject)

def ComObject.val : ComObject → PyValue
  | .mk v _ _ _ _ _ => v

def ComObject.members : ComObject → List String
  | .mk _ m _ _ _ _ => m

def ComObject.attr : ComObject → String → Except String ComObject
  | .mk _ _ a _ _ _ => a

def ComObject.callm : ComObject → String → List PyValue → Except String ComObject
  | .mk _ _ _ c _ _ => c

def ComObject.seta : ComObject → String → PyValue → Option String
  | .mk _ _ _ _ s _ => s

def ComObject.qi : ComObject → String → Except String ComObject
  | .mk _ _ _ _ _ q => q

/-- Python `hasattr(obj, name)`: true exactly when `getattr` does not raise. -/
def hasattr (obj : ComObject) (name : String) : Bool :=
  match obj.attr name with
  | .ok _ => true
  | .error _ => false

def defaultPyValue : PyValue :=
  ⟨false, "", "", "", false, false, false, false, false, none, none⟩

def defaultComObject : ComObject :=
  .mk defaultPyValue [] (fun _ => .error "") (fun _ _ => .error "")
    (fun _ _ => none) (fun _ => .error "")

instance : Inhabited ComObject := ⟨defaultComObject⟩

/-- The win32com.client oracle: `Dispatch`, `ProgIDFromCLSID`,
`GetCLSIDFromProgID`; an `.error` value models the call raising. -/
structure Win32Com where
  dispatch : String → Except String ComObject
  progIDFromCLSID : String → Except String String
  getCLSIDFromProgID : String → Except String String

/-- Line 43-48: allow-list gate; the module constant `COM_ALLOWLIST` is
passed explicitly. -/
def is_com_object_allowed (allowlist : List String) (identifier : String) : Bool :=
  if allowlist.isEmpty then true
  else allowlist.contains identifier

/-! Type information, lines 50-110. -/

structure MethodEntry where
  name : String
  is_private : Bool
  signature : String
  deriving DecidableEq, Repr

structure PropEntry where
  name : String
  type : String
  is_private : Bool
  is_com_object : Bool
  deriving DecidableEq, Repr

structure ErrEntry where
  member : String
  error : String
  deriving DecidableEq, Repr

structure TypeInformation where
  methods : List MethodEntry
  properties : List PropEntry
  events : List String
  errors_encountered : List ErrEntry
  deriving DecidableEq, Repr

instance : Inhabited TypeInformation := ⟨⟨[], [], [], []⟩⟩

/-- Line 87: `name.startswith("on") and name[2:3].isupper()`. -/
def isEventName (name : String) : Bool :=
  pyStartsWith name "on" &&
    (match name.data.drop 2 with
     | c :: _ => c.isUpper
     | [] => false)

/-- One iteration of the member loop of `get_type_info` (lines 71-108):
a raising `getattr` is recorded in `errors_encountered` and the loop
continues; otherwise the member is filed as method, event or property. -/
def processMember (obj : ComObject) (ti : TypeInformation) (name : String) : TypeInformation :=
  match obj.attr name with
  | .error e =>
      { ti with errors_encountered := ti.errors_encountered ++ [⟨name, e⟩] }
  | .ok attrv =>
      if attrv.val.isCallable then
        { ti with methods := ti.methods ++
            [⟨name, pyStartsWith name "_", attrv.val.sigStr.getD "Unknown"⟩] }
      else if isEventName name then
        { ti with events := ti.events ++ [name] }
      else
        { ti with properties := ti.properties ++
            [⟨name, attrv.val.typeName, pyStartsWith name "_",
              if attrv.val.isNone then false else attrv.val.hasOleobj⟩] }

/-- Lines 50-110: `get_type_info` iterates `dir(obj)` in order. -/
def get_type_info (obj : ComObject) : TypeInformation :=
  obj.members.foldl (processMember obj) ⟨[], [], [], []⟩

/-! Result envelopes.  Every tool returns a dict `{result, message, <payload>}`;
the operation-specific payload field (`runtime_id`, `type_info`,
`return_value`, `value`, `details`, `objects`, or no field at all for
SetProperty) is modelled by one tagged payload type, with `nullp` standing
for Python `None` (and for the absent field of SetProperty). -/

structure DisposeDetail where
  id : String
  result : Nat
  message : String
  deriving DecidableEq, Repr

structure ObjInfo where
  runtime_id : String
  prog_id : String
  clsid : String
  deriving DecidableEq, Repr

inductive Payload where
  | nullp
  | str (s : String)
  | val (v : PyValue)
  | tinfo (t : TypeInformation)
  | details (l : List DisposeDetail)
  | objs (l : List ObjInfo)
  deriving DecidableEq, Repr

structure Envelope where
  result : Nat
  message : String
  payload : Payload
  deriving DecidableEq, Repr

/-- Every message in the source except Dispose's aggregate is the f-string
`f"{hr_to_string(result)}: <detail>"`. -/
def mkEnv (r : Nat) (detail : String) (p : Payload) : Envelope :=
  ⟨r, hr_to_string r ++ ": " ++ detail, p⟩

def mkDetail (id : String) (r : Nat) (detail : String) : DisposeDetail :=
  ⟨id, r, hr_to_string r ++ ": " ++ detail⟩

def Payload.detailsOf : Payload → List DisposeDetail
  | .details l => l
  | _ => []

def Payload.tinfoOf : Payload → TypeInformation
  | .tinfo t => t
  | _ => default

/-! The object registry, line 38: a Python dict from runtime_id to
`{"object": ..., "prog_id": ..., "clsid": ...}`, modelled as an insertion-
ordered association list with unique keys. -/

structure RegistryEntry where
  obj : ComObject
  prog_id : String
  clsid : String

instance : Inhabited RegistryEntry := ⟨⟨defaultComObject, "Unknown", "Unknown"⟩⟩

abbrev Registry := List (String × RegistryEntry)

/-- Python `k in d`. -/
def dictMem (reg : Registry) (k : String) : Bool :=
  reg.any (fun p => p.1 == k)

/-- Python `d[k]` under the guarantee that `k` is present. -/
def dictGet (reg : Registry) (k : String) : RegistryEntry :=
  match reg.find? (fun p => p.1 == k) with
  | some p => p.2
  | none => default

/-- Python `d[k] = v`: replace in place if present, else append. -/
def dictSet (reg : Registry) (k : String) (v : RegistryEntry) : Registry :=
  if dictMem reg k then reg.map (fun p => if p.1 == k then (k, v) else p)
  else reg ++ [(k, v)]

/-- Python `del d[k]`. -/
def dictDel (reg : Registry) (k : String) : Registry :=
  reg.filter (fun p => p.1 != k)

/-- Lines 198-206, 314-329 and 414-429: the identical best-effort CLSID /
ProgID recovery on a wrapped value, returning `(clsid, prog_id)`.  Reading
`_oleobj_` of a value lacking it raises, so both halves stay `"Unknown"`;
if `GetCLSID` succeeds but `ProgIDFromCLSID` raises, the already-assigned
`clsid` is kept and only `prog_id` stays `"Unknown"`. -/
def wrapResolve (rt : Win32Com) (v : PyValue) : String × String :=
  if v.hasOleobj then
    match v.oleGetCLSID with
    | none => ("Unknown", "Unknown")
    | some c =>
      (c, match rt.progIDFromCLSID c with
          | .error _ => "Unknown"
          | .ok p => p)
  else ("Unknown", "Unknown")

/-- Lines 112-178: `CreateObject`.  `fresh` is the uuid4 the runtime would
draw.  Lines 137-157: an identifier bracketed as `{...}` is taken as a CLSID
and the ProgID is resolved best-effort, otherwise the identifier is the
ProgID and the CLSID is resolved best-effort; each `except` branch defaults
its half to `"Unknown"`. -/
def co_create_instance (rt : Win32Com) (allowlist : List String) (reg : Registry)
    (fresh : String) (identifier : String) : Envelope × Registry :=
  if !(is_com_object_allowed allowlist identifier) then
    (mkEnv E_ACCESSDENIED (identifier ++ " is not on the ALLOWLIST") .nullp, reg)
  else
    match rt.dispatch identifier with
    | .error e => (mkEnv E_FAIL ("Failed to create COM object: " ++ e) .nullp, reg)
    | .ok com_object =>
      (mkEnv S_OK ("Successfully created COM object: " ++ identifier) (.str fresh),
       dictSet reg fresh
         { obj := com_object
           prog_id :=
             if pyStartsWith identifier "\x7b" && pyEndsWith identifier "\x7d" then
               match rt.progIDFromCLSID identifier with
               | .ok p => p
               | .error _ => "Unknown"
             else identifier
           clsid :=
             if pyStartsWith identifier "\x7b" && pyEndsWith identifier "\x7d" then
               identifier
             else
               match rt.getCLSIDFromProgID identifier with
               | .ok c => c
               | .error _ => "Unknown" })

/-- Lines 180-226: `QueryInterface`. -/
def query_interface (rt : Win32Com) (reg : Registry) (fresh : String)
    (runtime_id iid : String) : Envelope × Registry :=
  if !(dictMem reg runtime_id) then
    (mkEnv E_INVALIDARG ("Invalid object ID: " ++ runtime_id) .nullp, reg)
  else
    match (dictGet reg runtime_id).obj.qi iid with
    | .error e => (mkEnv E_NOINTERFACE ("Interface not supported: " ++ e) .nullp, reg)
    | .ok intf =>
      (mkEnv S_OK ("Successfully queried interface: " ++ iid ++ ". New runtime ID: " ++ fresh)
         (.str fresh),
       dictSet reg fresh ⟨intf, (wrapResolve rt intf.val).2, (wrapResolve rt intf.val).1⟩)

/-- Lines 228-260: `GetTypeInformation` (the spec's Describe).  `dir` is
modelled total, so the enumeration-cannot-start `except` branch of lines
254-260 is unreachable in the model. -/
def get_type_information (reg : Registry) (runtime_id : String) : Envelope × Registry :=
  if !(dictMem reg runtime_id) then
    (mkEnv E_INVALIDARG ("Invalid object ID: " ++ runtime_id) .nullp, reg)
  else
    (mkEnv S_OK "Successfully retrieved type information"
       (.tinfo (get_type_info (dictGet reg runtime_id).obj)), reg)

/-- Lines 304-309: the Wrap/PassThrough classifier of `InvokeMethod`. -/
def invoke_is_com_object (v : PyValue) : Bool :=
  v.hasOleobj || v.typeName == "CDispatch" ||
    strContains v.typeModule "win32com" || strContains v.strRep "<COMObject"

/-- Lines 404-409: the Wrap/PassThrough classifier of `GetProperty`. -/
def getprop_is_com_object (v : PyValue) : Bool :=
  v.typeName == "CDispatch" ||
    (v.isCDispatchInst || v.isCoClassInst || v.isDispatchBaseInst) ||
    strContains v.typeModule "win32com.gen_py"

/-- Lines 262-364: `InvokeMethod`.  `args = none` models the Python default
`None`, replaced by `[]` (line 292-293). -/
def invoke_method (rt : Win32Com) (reg : Registry) (fresh : String)
    (runtime_id method_name : String) (args : Option (List PyValue)) : Envelope × Registry :=
  if !(dictMem reg runtime_id) then
    (mkEnv E_INVALIDARG ("Invalid object ID: " ++ runtime_id) .nullp, reg)
  else if !(hasattr (dictGet reg runtime_id).obj method_name) then
    (mkEnv DISP_E_MEMBERNOTFOUND ("Method not found: " ++ method_name) .nullp, reg)
  else
    match (dictGet reg runtime_id).obj.callm method_name (args.getD []) with
    | .error e =>
      (mkEnv E_FAIL ("Failed to invoke method '" ++ method_name ++ "': " ++ e) .nullp, reg)
    | .ok return_value =>
      if invoke_is_com_object return_value.val then
        (mkEnv S_OK ("Successfully invoked method: " ++ method_name ++
             " and registered return value as COM object. Reference it with runtime_id: " ++ fresh)
           (.str fresh),
         dictSet reg fresh
           ⟨return_value, (wrapResolve rt return_value.val).2, (wrapResolve rt return_value.val).1⟩)
      else
        (mkEnv S_OK ("Successfully invoked method: " ++ method_name)
           (.val return_value.val), reg)

/-- Lines 366-464: `GetProperty`. -/
def get_property (rt : Win32Com) (reg : Registry) (fresh : String)
    (runtime_id property_name : String) : Envelope × Registry :=
  if !(dictMem reg runtime_id) then
    (mkEnv E_INVALIDARG ("Invalid object ID: " ++ runtime_id) .nullp, reg)
  else if !(hasattr (dictGet reg runtime_id).obj property_name) then
    (mkEnv DISP_E_MEMBERNOTFOUND ("Property not found: " ++ property_name) .nullp, reg)
  else
    match (dictGet reg runtime_id).obj.attr property_name with
    | .error e =>
      (mkEnv E_FAIL ("Failed to get property '" ++ property_name ++ "': " ++ e) .nullp, reg)
    | .ok value =>
      if getprop_is_com_object value.val then
        (mkEnv S_OK ("Successfully got property: " ++ property_name ++
             " and registered COM object. Reference it with runtime_id: " ++ fresh)
           (.str fresh),
         dictSet reg fresh
           ⟨value, (wrapResolve rt value.val).2, (wrapResolve rt value.val).1⟩)
      else
        (mkEnv S_OK ("Successfully got property: " ++ property_name)
           (.val value.val), reg)

/-- Lines 466-502: `SetProperty` (no payload field in its dict). -/
def set_property (reg : Registry) (runtime_id property_name : String)
    (value : PyValue) : Envelope × Registry :=
  if !(dictMem reg runtime_id) then
    (mkEnv E_INVALIDARG ("Invalid object ID: " ++ runtime_id) .nullp, reg)
  else if !(hasattr (dictGet reg runtime_id).obj property_name) then
    (mkEnv DISP_E_MEMBERNOTFOUND ("Property not found: " ++ property_name) .nullp, reg)
  else
    match (dictGet reg runtime_id).obj.seta property_name value with
    | some e => (mkEnv E_FAIL ("Failed to set property: " ++ e) .nullp, reg)
    | none => (mkEnv S_OK ("Successfully set property: " ++ property_name) .nullp, reg)

/-! Lines 504-561: `DisposeObject`. -/

def okDetail (id : String) : DisposeDetail :=
  mkDetail id S_OK "Successfully disposed object"

def badDetail (id : String) : DisposeDetail :=
  mkDetail id E_INVALIDARG ("Invalid object ID: " ++ id)

/-- One iteration of the dispose loop (lines 526-554) over the state
`(registry, results, overall_result)`.  `del` on a present key cannot raise,
so the `except` branch of lines 547-554 is unreachable in the model. -/
def disposeStep (st : Registry × List DisposeDetail × Nat) (runtime_id : String) :
    Registry × List DisposeDetail × Nat :=
  if !(dictMem st.1 runtime_id) then
    (st.1, st.2.1 ++ [badDetail runtime_id], E_FAIL)
  else
    (dictDel st.1 runtime_id, st.2.1 ++ [okDetail runtime_id], st.2.2)

def dispose_list (reg : Registry) (ids : List String) : Envelope × Registry :=
  match ids.foldl disposeStep (reg, [], S_OK) with
  | (reg2, results, overall) =>
    (⟨overall, "Processed " ++ toString ids.length ++ " object(s)", .details results⟩, reg2)

/-- Lines 504-561: a single runtime_id string is normalized to a singleton
list (lines 518-519), then each id is processed in order. -/
def dispose_object (reg : Registry) (runtime_id_or_ids : Sum String (List String)) :
    Envelope × Registry :=
  match runtime_id_or_ids with
  | .inl s => dispose_list reg [s]
  | .inr l => dispose_list reg l

/-- Lines 564-584: `ListActiveComObjects`. -/
def list_active_com_objects (reg : Registry) : Envelope × Registry :=
  (mkEnv S_OK ("Found " ++ toString reg.length ++ " active COM objects")
     (.objs (reg.map (fun p => ⟨p.1, p.2.prog_id, p.2.clsid⟩))), reg)

/-! Concrete objects, registries and runtime oracles used by the witness
theorems below. -/

/-- A value of type `VARIANT` declared in module `win32com.client`: no
`_oleobj_` marker, type name not `CDispatch`, not an instance of the three
wrapper classes, string rendering not matching `<COMObject`. -/
def vVARIANT : PyValue :=
  { hasOleobj := false, typeName := "VARIANT", typeModule := "win32com.client",
    strRep := "VARIANT", isCDispatchInst := false, isCoClassInst := false,
    isDispatchBaseInst := false, isNone := false, isCallable := false,
    oleGetCLSID := none, sigStr := none }

/-- A late-bound dispatch wrapper: type name `CDispatch`. -/
def vCDispatchVal : PyValue :=
  { hasOleobj := true, typeName := "CDispatch", typeModule := "win32com.client.dynamic",
    strRep := "<COMObject Range>", isCDispatchInst := true, isCoClassInst := false,
    isDispatchBaseInst := false, isNone := false, isCallable := false,
    oleGetCLSID := none, sigStr := none }

/-- An early-bound gen_py wrapper value. -/
def vGenPyVal : PyValue :=
  { hasOleobj := true, typeName := "_Application", typeModule := "win32com.gen_py.ABCDx",
    strRep := "obj", isCDispatchInst := false, isCoClassInst := false,
    isDispatchBaseInst := true, isNone := false, isCallable := false,
    oleGetCLSID := none, sigStr := none }

/-- A foreign runtime on which every call raises; used as a concrete oracle
in witnesses whose scenarios never reach the runtime. -/
def rtW : Win32Com :=
  ⟨fun _ => .error "unavailable", fun _ => .error "unavailable",
   fun _ => .error "unavailable"⟩

def entryW : RegistryEntry := ⟨defaultComObject, "p", "c"⟩

def regW : Registry := [("a", entryW)]

def tiTotal (ti : TypeInformation) : Nat :=
  ti.methods.length + ti.properties.length + ti.events.length +
    ti.errors_encountered.length

/-- The error entry a member contributes when its inspection raises. -/
def errOf (obj : ComObject) (name : String) : Option ErrEntry :=
  match obj.attr name with
  | .error e => some ⟨name, e⟩
  | .ok _ => none

def mkLeafObj (v : PyValue) : ComObject :=
  .mk v [] (fun _ => .error "") (fun _ _ => .error "") (fun _ _ => none)
    (fun _ => .error "")

/-- A COM object with one readable callable member, one member whose
inspection raises, one event-named member and one plain property. -/
def objW8 : ComObject :=
  .mk defaultPyValue ["Run", "bad", "onChange", "Visible"]
    (fun n =>
      if n == "bad" then .error "boom"
      else if n == "Run" then .ok (mkLeafObj { defaultPyValue with isCallable := true })
      else .ok (mkLeafObj defaultPyValue))
    (fun _ _ => .error "") (fun _ _ => none) (fun _ => .error "")

def regW8 : Registry := [("h8", ⟨objW8, "p", "c"⟩)]

/-- A runtime whose Dispatch always succeeds but whose identifier resolution
always raises. -/
def rtW9 : Win32Com :=
  ⟨fun _ => .ok defaultComObject, fun _ => .error "no progid",
   fun _ => .error "no clsid"⟩

/-- The message of an envelope starts with the description of its result
code followed by ": ". -/
def msgEmbedsCode (e : Envelope) : Bool :=
  charsPre (hr_to_string e.result ++ ": ").data e.message.data

/-- Same property for a per-item dispose detail. -/
def detailEmbedsCode (d : DisposeDetail) : Bool :=
  charsPre (hr_to_string d.result ++ ": ").data d.message.data

/-! Helper lemmas about the string primitives. -/

theorem charsPre_trans {p n h : List Char} (h1 : charsPre p n = true)
    (h2 : charsPre n h = true) : charsPre p h = true := by
  induction p generalizing n h with
  | nil => rfl
  | cons a as ih =>
    cases n with
    | nil => simp [charsPre] at h1
    | cons b bs =>
      cases h with
      | nil => simp [charsPre] at h2
      | cons c cs =>
        simp only [charsPre, Bool.and_eq_true, beq_iff_eq] at h1 h2 ⊢
        exact ⟨h1.1.trans h2.1, ih h1.2 h2.2⟩

theorem listSub_mono {p n : List Char} (hpn : charsPre p n = true) :
    ∀ {h : List Char}, listSub n h = true → listSub p h = true := by
  intro h
  induction h with
  | nil =>
    intro hs
    cases n with
    | nil =>
      cases p with
      | nil => rfl
      | cons a as => simp [charsPre] at hpn
    | cons b bs => simp [listSub] at hs
  | cons b bs ih =>
    intro hs
    simp only [listSub, Bool.or_eq_true] at hs ⊢
    rcases hs with hs | hs
    · exact Or.inl (charsPre_trans hpn hs)
    · exact Or.inr (ih hs)

theorem charsPre_self_append (l m : List Char) : charsPre l (l ++ m) = true := by
  induction l with
  | nil => rfl
  | cons a as ih => simp [charsPre, ih]

theorem strData_append (s t : String) : (s ++ t).data = s.data ++ t.data := rfl

/-! Claim C1: the spec says GetProperty applies the Value Classifier
identically to Invoke's return.  The two classifier predicates in the source
are different: lines 304-308 test `_oleobj_`, type name `CDispatch`,
`'win32com' in module`, `'<COMObject' in str(value)`, while lines 404-408
test type name `CDispatch`, instance-of the three wrapper classes, and
`'win32com.gen_py' in module`. -/

/-- C1 counterexample: the Wrap/PassThrough classifiers of Invoke and
GetProperty are not identical — on a value whose declaring module contains
`win32com` but not `win32com.gen_py` and which carries none of the other
markers, Invoke classifies Wrap while GetProperty classifies PassThrough. -/
theorem c1_classifier_counterexample :
    invoke_is_com_object vVARIANT = true ∧ getprop_is_com_object vVARIANT = false := by
  decide

/-- C1 (amended): the two classifiers are distinct predicates; they do agree
(both classify Wrap) on every value whose runtime type name is `CDispatch`,
and on every value whose declaring module contains `win32com.gen_py`. -/
theorem c1_classifiers_agree_on_marked (v : PyValue) :
    (v.typeName = "CDispatch" →
      invoke_is_com_object v = true ∧ getprop_is_com_object v = true) ∧
    (strContains v.typeModule "win32com.gen_py" = true →
      invoke_is_com_object v = true ∧ getprop_is_com_object v = true) := by
  constructor
  · intro h
    simp [invoke_is_com_object, getprop_is_com_object, h]
  · intro h
    have h2 : strContains v.typeModule "win32com" = true :=
      listSub_mono (by decide) h
    simp [invoke_is_com_object, getprop_is_com_object, h, h2]

theorem c1_classifiers_agree_witness :
    (invoke_is_com_object vCDispatchVal = true ∧ getprop_is_com_object vCDispatchVal = true) ∧
    (invoke_is_com_object vGenPyVal = true ∧ getprop_is_com_object vGenPyVal = true) :=
  ⟨(c1_classifiers_agree_on_marked vCDispatchVal).1 rfl,
   (c1_classifiers_agree_on_marked vGenPyVal).2 (by decide)⟩

/-- C10: disposing a single handle string is exactly disposing the singleton
list of it — the envelope (one detail entry, message reporting one processed
object) and the resulting registry coincide. -/
theorem c10_single_dispose_normalizes (reg : Registry) (h : String) :
    dispose_object reg (Sum.inl h) = dispose_object reg (Sum.inr [h]) ∧
    ((dispose_object reg (Sum.inl h)).1.payload.detailsOf).length = 1 ∧
    (dispose_object reg (Sum.inl h)).1.message = "Processed 1 object(s)" := by
  refine ⟨rfl, ?_, ?_⟩
  · simp only [dispose_object, dispose_list, List.foldl]
    by_cases hm : dictMem reg h <;> simp [disposeStep, hm, Payload.detailsOf]
  · simp only [dispose_object, dispose_list, List.foldl]
    by_cases hm : dictMem reg h <;> simp [disposeStep, hm] <;> try decide

/-- C2 counterexample: Dispose of a single handle absent from the registry
does not return result code E_INVALIDARG in its envelope — the aggregate
result is E_FAIL (only the per-item detail carries E_INVALIDARG). -/
theorem c2_dispose_aggregate_counterexample :
    (dispose_object [] (Sum.inl "h")).1.result = E_FAIL ∧ E_FAIL ≠ E_INVALIDARG := by
  decide

/-- C2 (amended): for a handle not in the registry, QueryInterface, Describe,
Invoke, GetProperty and SetProperty each return the E_INVALIDARG envelope
with a null payload and leave the registry unchanged, while Dispose of that
single handle returns aggregate result E_FAIL whose single detail entry
carries E_INVALIDARG.  Every returned envelope is an explicit function of
the handle string alone, so a never-issued and a previously-disposed handle
are indistinguishable. -/
theorem c2_absent_handle_envelopes (rt : Win32Com) (reg : Registry) (fresh : String)
    (h iid m pname : String) (args : Option (List PyValue)) (v : PyValue)
    (hm : dictMem reg h = false) :
    query_interface rt reg fresh h iid =
      (mkEnv E_INVALIDARG ("Invalid object ID: " ++ h) .nullp, reg) ∧
    get_type_information reg h =
      (mkEnv E_INVALIDARG ("Invalid object ID: " ++ h) .nullp, reg) ∧
    invoke_method rt reg fresh h m args =
      (mkEnv E_INVALIDARG ("Invalid object ID: " ++ h) .nullp, reg) ∧
    get_property rt reg fresh h pname =
      (mkEnv E_INVALIDARG ("Invalid object ID: " ++ h) .nullp, reg) ∧
    set_property reg h pname v =
      (mkEnv E_INVALIDARG ("Invalid object ID: " ++ h) .nullp, reg) ∧
    dispose_object reg (Sum.inl h) =
      (⟨E_FAIL, "Processed 1 object(s)", .details [badDetail h]⟩, reg) := by
  refine ⟨?_, ?_, ?_, ?_, ?_, ?_⟩
  · simp [query_interface, hm]
  · simp [get_type_information, hm]
  · simp [invoke_method, hm]
  · simp [get_property, hm]
  · simp [set_property, hm]
  · simp only [dispose_object, dispose_list, List.foldl, disposeStep, hm]
    simp
    try decide

theorem c2_absent_handle_witness :
    dictMem ([] : Registry) "h" = false ∧
    (query_interface rtW [] "f" "h" "i" =
      (mkEnv E_INVALIDARG ("Invalid object ID: " ++ "h") .nullp, []) ∧
    get_type_information [] "h" =
      (mkEnv E_INVALIDARG ("Invalid object ID: " ++ "h") .nullp, []) ∧
    invoke_method rtW [] "f" "h" "M" none =
      (mkEnv E_INVALIDARG ("Invalid object ID: " ++ "h") .nullp, []) ∧
    get_property rtW [] "f" "h" "P" =
      (mkEnv E_INVALIDARG ("Invalid object ID: " ++ "h") .nullp, []) ∧
    set_property [] "h" "P" defaultPyValue =
      (mkEnv E_INVALIDARG ("Invalid object ID: " ++ "h") .nullp, []) ∧
    dispose_object [] (Sum.inl "h") =
      (⟨E_FAIL, "Processed 1 object(s)", .details [badDetail "h"]⟩, [])) :=
  ⟨rfl, c2_absent_handle_envelopes rtW [] "f" "h" "i" "M" "P" none defaultPyValue rfl⟩

/-- C3: an identifier not contained in a non-empty allow-list makes Create
return the E_ACCESSDENIED envelope with a null handle payload and leave the
registry exactly unchanged; the output is independent of the foreign runtime
oracle and of the drawn uuid, so no instantiation is attempted. -/
theorem c3_denied_create (rt rt2 : Win32Com) (allowlist : List String) (reg : Registry)
    (fresh fresh2 : String) (identifier : String)
    (hne : allowlist ≠ []) (hni : identifier ∉ allowlist) :
    co_create_instance rt allowlist reg fresh identifier =
      (mkEnv E_ACCESSDENIED (identifier ++ " is not on the ALLOWLIST") .nullp, reg) ∧
    co_create_instance rt allowlist reg fresh identifier =
      co_create_instance rt2 allowlist reg fresh2 identifier := by
  have hall : is_com_object_allowed allowlist identifier = false := by
    simp [is_com_object_allowed, List.isEmpty_iff, hne, hni]
  constructor <;> simp [co_create_instance, hall]

theorem c3_denied_create_witness :
    (["Word.Application"] : List String) ≠ [] ∧ "Evil.App" ∉ ["Word.Application"] ∧
    (co_create_instance rtW ["Word.Application"] [] "f" "Evil.App" =
      (mkEnv E_ACCESSDENIED ("Evil.App" ++ " is not on the ALLOWLIST") .nullp, []) ∧
    co_create_instance rtW ["Word.Application"] [] "f" "Evil.App" =
      co_create_instance rtW ["Word.Application"] [] "f2" "Evil.App") :=
  ⟨by decide, by decide,
   c3_denied_create rtW rtW ["Word.Application"] [] "f" "f2" "Evil.App"
     (by decide) (by decide)⟩

/-- C5: Invoke on a live handle whose bound object lacks the requested
member returns the DISP_E_MEMBERNOTFOUND envelope with null return_value and
leaves the registry unchanged; the output does not depend on the runtime
oracle, the drawn uuid or the supplied arguments, so the member is never
called. -/
theorem c5_member_not_found (rt rt2 : Win32Com) (reg : Registry) (fresh fresh2 : String)
    (rid mname : String) (args args2 : Option (List PyValue))
    (hlive : dictMem reg rid = true)
    (habs : hasattr (dictGet reg rid).obj mname = false) :
    invoke_method rt reg fresh rid mname args =
      (mkEnv DISP_E_MEMBERNOTFOUND ("Method not found: " ++ mname) .nullp, reg) ∧
    invoke_method rt reg fresh rid mname args =
      invoke_method rt2 reg fresh2 rid mname args2 := by
  constructor <;> simp [invoke_method, hlive, habs]

theorem c5_member_not_found_witness :
    dictMem regW "a" = true ∧
    hasattr (dictGet regW "a").obj "Foo" = false ∧
    (invoke_method rtW regW "f" "a" "Foo" none =
      (mkEnv DISP_E_MEMBERNOTFOUND ("Method not found: " ++ "Foo") .nullp, regW) ∧
    invoke_method rtW regW "f" "a" "Foo" none =
      invoke_method rtW regW "f2" "a" "Foo" (some [])) :=
  ⟨rfl, rfl,
   c5_member_not_found rtW rtW regW "f" "f2" "a" "Foo" none (some []) rfl rfl⟩

/-! C7 helper lemmas: each operation's envelope carries either a success
result code or a null payload. -/

theorem create_ok_or_null (rt : Win32Com) (al : List String) (reg : Registry)
    (fresh idf : String) :
    (co_create_instance rt al reg fresh idf).1.result = S_OK ∨
    (co_create_instance rt al reg fresh idf).1.payload = .nullp := by
  unfold co_create_instance
  split
  · exact Or.inr rfl
  · split
    · exact Or.inr rfl
    · exact Or.inl rfl

theorem qi_ok_or_null (rt : Win32Com) (reg : Registry) (fresh rid iid : String) :
    (query_interface rt reg fresh rid iid).1.result = S_OK ∨
    (query_interface rt reg fresh rid iid).1.payload = .nullp := by
  unfold query_interface
  split
  · exact Or.inr rfl
  · split
    · exact Or.inr rfl
    · exact Or.inl rfl

theorem describe_ok_or_null (reg : Registry) (rid : String) :
    (get_type_information reg rid).1.result = S_OK ∨
    (get_type_information reg rid).1.payload = .nullp := by
  unfold get_type_information
  split
  · exact Or.inr rfl
  · exact Or.inl rfl

theorem invoke_ok_or_null (rt : Win32Com) (reg : Registry) (fresh rid m : String)
    (args : Option (List PyValue)) :
    (invoke_method rt reg fresh rid m args).1.result = S_OK ∨
    (invoke_method rt reg fresh rid m args).1.payload = .nullp := by
  unfold invoke_method
  split
  · exact Or.inr rfl
  · split
    · exact Or.inr rfl
    · split
      · exact Or.inr rfl
      · split
        · exact Or.inl rfl
        · exact Or.inl rfl

theorem getprop_ok_or_null (rt : Win32Com) (reg : Registry) (fresh rid pname : String) :
    (get_property rt reg fresh rid pname).1.result = S_OK ∨
    (get_property rt reg fresh rid pname).1.payload = .nullp := by
  unfold get_property
  split
  · exact Or.inr rfl
  · split
    · exact Or.inr rfl
    · split
      · exact Or.inr rfl
      · split
        · exact Or.inl rfl
        · exact Or.inl rfl

/-- C7: for Create, QueryInterface, Describe, Invoke and GetProperty, a
returned envelope whose result code is not S_OK always carries a null
operation-specific payload. -/
theorem c7_nonsuccess_null_payload (rt : Win32Com) (al : List String) (reg : Registry)
    (fresh idf rid iid m pname : String) (args : Option (List PyValue)) :
    ((co_create_instance rt al reg fresh idf).1.result ≠ S_OK →
      (co_create_instance rt al reg fresh idf).1.payload = .nullp) ∧
    ((query_interface rt reg fresh rid iid).1.result ≠ S_OK →
      (query_interface rt reg fresh rid iid).1.payload = .nullp) ∧
    ((get_type_information reg rid).1.result ≠ S_OK →
      (get_type_information reg rid).1.payload = .nullp) ∧
    ((invoke_method rt reg fresh rid m args).1.result ≠ S_OK →
      (invoke_method rt reg fresh rid m args).1.payload = .nullp) ∧
    ((get_property rt reg fresh rid pname).1.result ≠ S_OK →
      (get_property rt reg fresh rid pname).1.payload = .nullp) :=
  ⟨fun hn => (create_ok_or_null rt al reg fresh idf).resolve_left hn,
   fun hn => (qi_ok_or_null rt reg fresh rid iid).resolve_left hn,
   fun hn => (describe_ok_or_null reg rid).resolve_left hn,
   fun hn => (invoke_ok_or_null rt reg fresh rid m args).resolve_left hn,
   fun hn => (getprop_ok_or_null rt reg fresh rid pname).resolve_left hn⟩

theorem c7_nonsuccess_null_payload_witness :
    ((co_create_instance rtW ["a"] [] "f" "b").1.result ≠ S_OK ∧
      (co_create_instance rtW ["a"] [] "f" "b").1.payload = .nullp) ∧
    ((query_interface rtW [] "f" "h" "i").1.result ≠ S_OK ∧
      (query_interface rtW [] "f" "h" "i").1.payload = .nullp) ∧
    ((get_type_information [] "h").1.result ≠ S_OK ∧
      (get_type_information [] "h").1.payload = .nullp) ∧
    ((invoke_method rtW [] "f" "h" "M" none).1.result ≠ S_OK ∧
      (invoke_method rtW [] "f" "h" "M" none).1.payload = .nullp) ∧
    ((get_property rtW [] "f" "h" "P").1.result ≠ S_OK ∧
      (get_property rtW [] "f" "h" "P").1.payload = .nullp) :=
  ⟨⟨by decide, (c7_nonsuccess_null_payload rtW ["a"] [] "f" "b" "h" "i" "M" "P" none).1
      (by decide)⟩,
   ⟨by decide, (c7_nonsuccess_null_payload rtW ["a"] [] "f" "b" "h" "i" "M" "P" none).2.1
      (by decide)⟩,
   ⟨by decide, (c7_nonsuccess_null_payload rtW ["a"] [] "f" "b" "h" "i" "M" "P" none).2.2.1
      (by decide)⟩,
   ⟨by decide, (c7_nonsuccess_null_payload rtW ["a"] [] "f" "b" "h" "i" "M" "P" none).2.2.2.1
      (by decide)⟩,
   ⟨by decide, (c7_nonsuccess_null_payload rtW ["a"] [] "f" "b" "h" "i" "M" "P" none).2.2.2.2
      (by decide)⟩⟩

/-! C8 helpers: every member of `dir(obj)` lands in exactly one bucket of the
TypeDescription, and the unreadable ones are exactly the entries of
`errors_encountered`, in enumeration order. -/

theorem processMember_total (obj : ComObject) (ti : TypeInformation) (n : String) :
    tiTotal (processMember obj ti n) = tiTotal ti + 1 := by
  unfold processMember
  rcases hA : obj.attr n with e | a
  · simp [tiTotal]
    omega
  · by_cases hc : a.val.isCallable <;> by_cases he : isEventName n <;>
      simp [tiTotal, hc, he] <;> omega

theorem processMember_errors (obj : ComObject) (ti : TypeInformation) (n : String) :
    (processMember obj ti n).errors_encountered =
      ti.errors_encountered ++ (errOf obj n).toList := by
  unfold processMember errOf
  rcases hA : obj.attr n with e | a
  · simp
  · by_cases hc : a.val.isCallable <;> by_cases he : isEventName n <;>
      simp [hc, he]

theorem foldl_tiTotal (obj : ComObject) (ms : List String) (ti : TypeInformation) :
    tiTotal (ms.foldl (processMember obj) ti) = tiTotal ti + ms.length := by
  induction ms generalizing ti with
  | nil => simp
  | cons n t ih =>
    simp only [List.foldl_cons, List.length_cons]
    rw [ih, processMember_total]
    omega

theorem foldl_errors (obj : ComObject) (ms : List String) (ti : TypeInformation) :
    (ms.foldl (processMember obj) ti).errors_encountered =
      ti.errors_encountered ++ ms.filterMap (errOf obj) := by
  induction ms generalizing ti with
  | nil => simp
  | cons n t ih =>
    simp only [List.foldl_cons, List.filterMap_cons]
    rw [ih, processMember_errors]
    rcases hA : obj.attr n with e | a <;> simp [errOf, hA]

/-- C8: Describe on a live handle always returns Success with the registry
unchanged; the members whose inspection raises are recorded, in enumeration
order, as {member name, error text} entries of errors_encountered, and every
member of the enumeration still lands in exactly one bucket (methods,
properties, events or errors_encountered), so one unreadable member never
aborts the enumeration. -/
theorem c8_describe_partial_failure (reg : Registry) (rid : String)
    (hmem : dictMem reg rid = true) :
    (get_type_information reg rid).1.result = S_OK ∧
    (get_type_information reg rid).2 = reg ∧
    ((get_type_information reg rid).1.payload.tinfoOf).errors_encountered =
      (dictGet reg rid).obj.members.filterMap (errOf (dictGet reg rid).obj) ∧
    tiTotal ((get_type_information reg rid).1.payload.tinfoOf) =
      (dictGet reg rid).obj.members.length := by
  have h1 : get_type_information reg rid =
      (mkEnv S_OK "Successfully retrieved type information"
        (.tinfo (get_type_info (dictGet reg rid).obj)), reg) := by
    simp [get_type_information, hmem]
  rw [h1]
  refine ⟨rfl, rfl, ?_, ?_⟩
  · simpa [Payload.tinfoOf, mkEnv, get_type_info] using
      foldl_errors (dictGet reg rid).obj (dictGet reg rid).obj.members ⟨[], [], [], []⟩
  · simpa [Payload.tinfoOf, mkEnv, get_type_info, tiTotal] using
      foldl_tiTotal (dictGet reg rid).obj (dictGet reg rid).obj.members ⟨[], [], [], []⟩

theorem c8_describe_partial_failure_witness :
    dictMem regW8 "h8" = true ∧
    ((get_type_information regW8 "h8").1.result = S_OK ∧
    (get_type_information regW8 "h8").2 = regW8 ∧
    ((get_type_information regW8 "h8").1.payload.tinfoOf).errors_encountered =
      (dictGet regW8 "h8").obj.members.filterMap (errOf (dictGet regW8 "h8").obj) ∧
    tiTotal ((get_type_information regW8 "h8").1.payload.tinfoOf) =
      (dictGet regW8 "h8").obj.members.length) :=
  ⟨rfl, c8_describe_partial_failure regW8 "h8" rfl⟩

/-- Inserting a fresh binding and looking its key up yields that binding. -/
theorem dictGet_dictSet (reg : Registry) (k : String) (v : RegistryEntry) :
    dictGet (dictSet reg k v) k = v := by
  induction reg with
  | nil => simp [dictGet, dictSet, dictMem]
  | cons p t ih =>
    by_cases hpk : p.1 = k
    · simp [dictGet, dictSet, dictMem, hpk]
    · by_cases hm : dictMem t k <;>
        simp only [dictGet, dictSet, dictMem, List.any_cons, hpk, hm] at ih ⊢ <;>
        simp_all [dictGet, dictSet, dictMem, List.find?, hpk, hm]

/-- C9: an identifier passed to Create is treated as a CLSID exactly when it
starts with a left brace and ends with a right brace, otherwise as a ProgID;
the supplied half of the (ProgID, CLSID) pair is stored verbatim while the
missing half is resolved best-effort, a resolution failure leaving that half
as the sentinel "Unknown" without affecting the supplied half. -/
theorem c9_identifier_classification (rt : Win32Com) (al : List String) (reg : Registry)
    (fresh identifier : String) (obj : ComObject)
    (hall : is_com_object_allowed al identifier = true)
    (hdisp : rt.dispatch identifier = .ok obj) :
    ((pyStartsWith identifier "\x7b" && pyEndsWith identifier "\x7d") = true →
      (dictGet (co_create_instance rt al reg fresh identifier).2 fresh).clsid = identifier ∧
      (dictGet (co_create_instance rt al reg fresh identifier).2 fresh).prog_id =
        (match rt.progIDFromCLSID identifier with
         | .ok p => p
         | .error _ => "Unknown")) ∧
    ((pyStartsWith identifier "\x7b" && pyEndsWith identifier "\x7d") = false →
      (dictGet (co_create_instance rt al reg fresh identifier).2 fresh).prog_id = identifier ∧
      (dictGet (co_create_instance rt al reg fresh identifier).2 fresh).clsid =
        (match rt.getCLSIDFromProgID identifier with
         | .ok c => c
         | .error _ => "Unknown")) := by
  constructor <;> intro hc <;>
    simp [co_create_instance, hall, hdisp, dictGet_dictSet, hc]

theorem c9_identifier_classification_witness :
    is_com_object_allowed [] "{00000-0000}" = true ∧
    rtW9.dispatch "{00000-0000}" = .ok defaultComObject ∧
    (pyStartsWith "{00000-0000}" "\x7b" && pyEndsWith "{00000-0000}" "\x7d") = true ∧
    (dictGet (co_create_instance rtW9 [] [] "f" "{00000-0000}").2 "f").clsid =
      "{00000-0000}" ∧
    (dictGet (co_create_instance rtW9 [] [] "f" "{00000-0000}").2 "f").prog_id =
      "Unknown" :=
  ⟨rfl, rfl, by decide,
   ((c9_identifier_classification rtW9 [] [] "f" "{00000-0000}" defaultComObject
       rfl rfl).1 (by decide)).1,
   ((c9_identifier_classification rtW9 [] [] "f" "{00000-0000}" defaultComObject
       rfl rfl).1 (by decide)).2⟩

theorem allCongr {α : Type} {l : List α} {f g : α → Bool}
    (h : ∀ x ∈ l, f x = g x) : l.all f = l.all g := by
  induction l with
  | nil => rfl
  | cons a t ih =>
    simp only [List.all_cons, h a (by simp)]
    rw [ih (fun x hx => h x (by simp [hx]))]

theorem dictMem_dictDel (reg : Registry) (k x : String) (hxk : x ≠ k) :
    dictMem (dictDel reg k) x = dictMem reg x := by
  unfold dictMem dictDel
  rw [List.any_filter]
  congr 1
  funext p
  by_cases hpx : p.1 = x
  · simp [hpx, hxk, bne]
  · simp [hpx]

/-- The dispose loop of lines 526-554, specified: when the input list has no
duplicates, the final registry drops exactly the listed keys, the detail
list records, in input order, S_OK for each handle present at entry and
E_INVALIDARG for each absent one, and the overall result survives exactly
when every handle was present. -/
theorem disposeFoldl_spec (ids : List String) (reg : Registry)
    (acc : List DisposeDetail) (ov : Nat) (hnd : ids.Nodup) :
    ids.foldl disposeStep (reg, acc, ov) =
      (reg.filter (fun p => !(ids.contains p.1)),
       acc ++ ids.map (fun h => if dictMem reg h then okDetail h else badDetail h),
       if ids.all (fun h => dictMem reg h) then ov else E_FAIL) := by
  induction ids generalizing reg acc ov with
  | nil => simp
  | cons h t ih =>
    rw [List.nodup_cons] at hnd
    rw [List.foldl_cons]
    have hmapDel : ∀ r : Registry,
        t.map (fun x => if dictMem (dictDel r h) x then okDetail x else badDetail x) =
        t.map (fun x => if dictMem r x then okDetail x else badDetail x) := fun r =>
      List.map_congr_left (fun x hx => by
        rw [dictMem_dictDel r h x (fun hxh => hnd.1 (hxh ▸ hx))])
    by_cases hm : dictMem reg h
    · rw [show disposeStep (reg, acc, ov) h = (dictDel reg h, acc ++ [okDetail h], ov) by
        simp [disposeStep, hm]]
      rw [ih _ _ _ hnd.2]
      simp only [Prod.mk.injEq]
      refine ⟨?_, ?_, ?_⟩
      · rw [show dictDel reg h = reg.filter (fun p => p.1 != h) from rfl,
          List.filter_filter]
        congr 1
        funext p
        by_cases hph : p.1 = h <;> simp [hph, bne, List.contains_cons]
      · rw [hmapDel reg, List.append_assoc, List.singleton_append, List.map_cons,
          if_pos hm]
      · have hall : t.all (fun x => dictMem (dictDel reg h) x) =
            t.all (fun x => dictMem reg x) :=
          allCongr (fun x hx => dictMem_dictDel reg h x (fun hxh => hnd.1 (hxh ▸ hx)))
        rw [hall, List.all_cons, hm]
        simp
    · rw [show disposeStep (reg, acc, ov) h = (reg, acc ++ [badDetail h], E_FAIL) by
        simp [disposeStep, hm]]
      rw [ih _ _ _ hnd.2]
      have hm2 : dictMem reg h = false := Bool.eq_false_iff.mpr hm
      have hreg : ∀ p ∈ reg, (p.1 == h) = false := by
        unfold dictMem at hm2
        rw [List.any_eq_false] at hm2
        exact fun p hp => Bool.eq_false_iff.mpr (hm2 p hp)
      simp only [Prod.mk.injEq]
      refine ⟨?_, ?_, ?_⟩
      · refine List.filter_congr (fun p hp => ?_)
        show (!t.contains p.1) = (!(h :: t).contains p.1)
        rw [show (h :: t).contains p.1 = (p.1 == h || t.contains p.1) from rfl,
          hreg p hp, Bool.false_or]
      · rw [List.append_assoc, List.singleton_append, List.map_cons, if_neg hm]
      · rw [List.all_cons, hm2]
        simp

/-- C4 counterexample: with handle "a" live and "x" absent, disposing the
list ["a", "a", "x"] — whose second element is a handle that IS present in
the registry when Dispose is called — yields individual codes
[S_OK, E_INVALIDARG, E_INVALIDARG]: the second entry for the present handle
"a" is E_INVALIDARG, not S_OK as the claim requires. -/
theorem c4_duplicate_counterexample :
    dictMem regW "a" = true ∧ dictMem regW "x" = false ∧
    ((dispose_object regW (Sum.inr ["a", "a", "x"])).1.payload.detailsOf).map
        (fun d => d.result) = [S_OK, E_INVALIDARG, E_INVALIDARG] ∧
    E_INVALIDARG ≠ S_OK := by
  decide

/-- C4 (amended): for a duplicate-free list of handles containing at least
one present and at least one absent handle, Dispose returns aggregate
E_FAIL, the details list has exactly one entry per input element in input
order — S_OK for each handle present in the registry, E_INVALIDARG for each
absent one — and afterwards exactly the listed keys are gone from the
registry. -/
theorem c4_mixed_dispose (reg : Registry) (ids : List String)
    (hnd : ids.Nodup)
    (hpres : ∃ h ∈ ids, dictMem reg h = true)
    (habs : ∃ h ∈ ids, dictMem reg h = false) :
    (dispose_object reg (Sum.inr ids)).1.result = E_FAIL ∧
    ((dispose_object reg (Sum.inr ids)).1.payload.detailsOf).length = ids.length ∧
    (dispose_object reg (Sum.inr ids)).1.payload.detailsOf =
      ids.map (fun h => if dictMem reg h then okDetail h else badDetail h) ∧
    (dispose_object reg (Sum.inr ids)).2 =
      reg.filter (fun p => !(ids.contains p.1)) := by
  have hall : (ids.all fun h => dictMem reg h) = false := by
    rcases habs with ⟨h, hh, hf⟩
    rw [Bool.eq_false_iff]
    intro hA
    rw [List.all_eq_true] at hA
    exact absurd (hA h hh) (by simp [hf])
  have key := disposeFoldl_spec ids reg [] S_OK hnd
  rw [show dispose_object reg (Sum.inr ids) = dispose_list reg ids from rfl]
  unfold dispose_list
  rw [key]
  simp [Payload.detailsOf, hall]

theorem c4_mixed_dispose_witness :
    (["a", "x"] : List String).Nodup ∧
    (∃ h ∈ (["a", "x"] : List String), dictMem regW h = true) ∧
    (∃ h ∈ (["a", "x"] : List String), dictMem regW h = false) ∧
    ((dispose_object regW (Sum.inr ["a", "x"])).1.result = E_FAIL ∧
    ((dispose_object regW (Sum.inr ["a", "x"])).1.payload.detailsOf).length =
      (["a", "x"] : List String).length ∧
    (dispose_object regW (Sum.inr ["a", "x"])).1.payload.detailsOf =
      (["a", "x"] : List String).map
        (fun h => if dictMem regW h then okDetail h else badDetail h) ∧
    (dispose_object regW (Sum.inr ["a", "x"])).2 =
      regW.filter (fun p => !((["a", "x"] : List String).contains p.1))) :=
  ⟨by decide, ⟨"a", by decide, rfl⟩, ⟨"x", by decide, rfl⟩,
   c4_mixed_dispose regW ["a", "x"] (by decide)
     ⟨"a", by decide, rfl⟩ ⟨"x", by decide, rfl⟩⟩

theorem msgEmbedsCode_mkEnv (r : Nat) (d : String) (p : Payload) :
    msgEmbedsCode (mkEnv r d p) = true := by
  show charsPre (hr_to_string r ++ ": ").data ((hr_to_string r ++ ": ") ++ d).data = true
  rw [strData_append]
  exact charsPre_self_append _ _

theorem detailEmbedsCode_mkDetail (id : String) (r : Nat) (d : String) :
    detailEmbedsCode (mkDetail id r d) = true := by
  show charsPre (hr_to_string r ++ ": ").data ((hr_to_string r ++ ": ") ++ d).data = true
  rw [strData_append]
  exact charsPre_self_append _ _

theorem dispose_list_message (reg : Registry) (ids : List String) :
    (dispose_list reg ids).1.message =
      "Processed " ++ toString ids.length ++ " object(s)" := by
  unfold dispose_list
  split
  rfl

theorem dispose_list_details (reg : Registry) (ids : List String) :
    (dispose_list reg ids).1.payload.detailsOf =
      (ids.foldl disposeStep (reg, [], S_OK)).2.1 := by
  unfold dispose_list
  split
  next r2 res ov heq => simp [Payload.detailsOf, heq]

theorem okDetail_embeds (id : String) : detailEmbedsCode (okDetail id) = true :=
  detailEmbedsCode_mkDetail id S_OK "Successfully disposed object"

theorem badDetail_embeds (id : String) : detailEmbedsCode (badDetail id) = true :=
  detailEmbedsCode_mkDetail id E_INVALIDARG ("Invalid object ID: " ++ id)

theorem all_append_one {l : List DisposeDetail} {d : DisposeDetail}
    (hl : l.all detailEmbedsCode = true) (hd : detailEmbedsCode d = true) :
    (l ++ [d]).all detailEmbedsCode = true := by
  rw [List.all_append, hl, Bool.true_and, List.all_cons, hd, Bool.true_and, List.all_nil]

theorem disposeFoldl_details_embed (ids : List String) (reg : Registry)
    (acc : List DisposeDetail) (ov : Nat)
    (hacc : acc.all detailEmbedsCode = true) :
    ((ids.foldl disposeStep (reg, acc, ov)).2.1).all detailEmbedsCode = true := by
  induction ids generalizing reg acc ov with
  | nil => exact hacc
  | cons h t ih =>
    rw [List.foldl_cons]
    by_cases hm : dictMem reg h
    · rw [show disposeStep (reg, acc, ov) h = (dictDel reg h, acc ++ [okDetail h], ov) by
        simp [disposeStep, hm]]
      exact ih _ _ _ (all_append_one hacc (okDetail_embeds h))
    · rw [show disposeStep (reg, acc, ov) h = (reg, acc ++ [badDetail h], E_FAIL) by
        simp [disposeStep, hm]]
      exact ih _ _ _ (all_append_one hacc (badDetail_embeds h))

/-- C6 counterexample: the aggregate envelope returned by Dispose does not
embed the description of its result code — its message is the bare
"Processed <n> object(s)" (line 559), which does not even contain
`hr_to_string` of the returned result code. -/
theorem c6_dispose_message_counterexample :
    (dispose_object [] (Sum.inr [])).1.result = S_OK ∧
    (dispose_object [] (Sum.inr [])).1.message = "Processed 0 object(s)" ∧
    strContains (dispose_object [] (Sum.inr [])).1.message
      (hr_to_string (dispose_object [] (Sum.inr [])).1.result) = false := by
  decide

/-- C6 (amended): every envelope of every facade operation except the
aggregate envelope of Dispose carries a message beginning with the
description of its result code followed by ": " and an operation-specific
detail clause; Dispose's aggregate message is exactly
"Processed <n> object(s)" while each of its per-item detail messages does
embed the description of that item's code; a code outside the vocabulary
renders as "Unknown HRESULT: <hex code>". -/
theorem c6_message_embeds_code (rt : Win32Com) (al : List String) (reg : Registry)
    (fresh idf rid iid m pname : String) (args : Option (List PyValue)) (v : PyValue)
    (arg : Sum String (List String)) (hr : Nat)
    (hunk : hr ∉ [S_OK, S_FALSE, E_FAIL, E_NOINTERFACE, E_INVALIDARG, E_ACCESSDENIED,
        DISP_E_MEMBERNOTFOUND]) :
    msgEmbedsCode (co_create_instance rt al reg fresh idf).1 = true ∧
    msgEmbedsCode (query_interface rt reg fresh rid iid).1 = true ∧
    msgEmbedsCode (get_type_information reg rid).1 = true ∧
    msgEmbedsCode (invoke_method rt reg fresh rid m args).1 = true ∧
    msgEmbedsCode (get_property rt reg fresh rid pname).1 = true ∧
    msgEmbedsCode (set_property reg rid pname v).1 = true ∧
    msgEmbedsCode (list_active_com_objects reg).1 = true ∧
    (dispose_object reg arg).1.message =
      "Processed " ++
        toString (match arg with | .inl _ => 1 | .inr l => l.length) ++ " object(s)" ∧
    ((dispose_object reg arg).1.payload.detailsOf).all detailEmbedsCode = true ∧
    hr_to_string hr = "Unknown HRESULT: " ++ pyHex hr := by
  refine ⟨?_, ?_, ?_, ?_, ?_, ?_, ?_, ?_, ?_, ?_⟩
  · unfold co_create_instance
    repeat' split
    all_goals exact msgEmbedsCode_mkEnv _ _ _
  · unfold query_interface
    repeat' split
    all_goals exact msgEmbedsCode_mkEnv _ _ _
  · unfold get_type_information
    repeat' split
    all_goals exact msgEmbedsCode_mkEnv _ _ _
  · unfold invoke_method
    repeat' split
    all_goals exact msgEmbedsCode_mkEnv _ _ _
  · unfold get_property
    repeat' split
    all_goals exact msgEmbedsCode_mkEnv _ _ _
  · unfold set_property
    repeat' split
    all_goals exact msgEmbedsCode_mkEnv _ _ _
  · exact msgEmbedsCode_mkEnv _ _ _
  · cases arg <;> rw [show ∀ x, dispose_object reg x =
        dispose_list reg (match x with | .inl s => [s] | .inr l => l) from
        fun x => by cases x <;> rfl] <;>
      rw [dispose_list_message] <;> rfl
  · cases arg <;> rw [show ∀ x, dispose_object reg x =
        dispose_list reg (match x with | .inl s => [s] | .inr l => l) from
        fun x => by cases x <;> rfl] <;>
      rw [dispose_list_details] <;> exact disposeFoldl_details_embed _ _ _ _ rfl
  · simp only [List.mem_cons, List.not_mem_nil, or_false, not_or] at hunk
    obtain ⟨h1, h2, h3, h4, h5, h6, h7⟩ := hunk
    simp [hr_to_string, h1, h2, h3, h4, h5, h6, h7]

theorem c6_message_embeds_code_witness :
    msgEmbedsCode (co_create_instance rtW [] [] "f" "x").1 = true ∧
    ((dispose_object [] (Sum.inr ["a"])).1.payload.detailsOf).all detailEmbedsCode = true ∧
    hr_to_string 1234 = "Unknown HRESULT: " ++ pyHex 1234 :=
  ⟨(c6_message_embeds_code rtW [] [] "f" "x" "r" "i" "M" "P" none defaultPyValue
      (Sum.inr ["a"]) 1234 (by decide)).1,
   (c6_message_embeds_code rtW [] [] "f" "x" "r" "i" "M" "P" none defaultPyValue
      (Sum.inr ["a"]) 1234 (by decide)).2.2.2.2.2.2.2.2.1,
   (c6_message_embeds_code rtW [] [] "f" "x" "r" "i" "M" "P" none defaultPyValue
      (Sum.inr ["a"]) 1234 (by decide)).2.2.2.2.2.2.2.2.2⟩
